import Mathlib

/-!
Verification of the domain/IP classification engine in
`apps/greencheck/domain_check.py` (class `GreenDomainChecker`).

The Python code is shallowly embedded: IP addresses are `Nat` (their
integer value), registries are lists in storage order (a Django queryset
with no `order_by` yields rows in an unspecified but stable storage
order, and `.first()` takes the head of that order; the accompanying
test file `test_api_asn.py` shows the default manager returns both
active and inactive rows), exceptions are `Except` / explicit error
variants, and `timezone.now()` is an explicit clock value threaded
through an environment record.
-/

namespace Greencheck

/-- Splitting a character list at space characters, mirroring Python's
`str.split(" ")` (consecutive separators yield empty fragments). -/
def splitCharsAux : List Char → List Char → List (List Char)
  | [], acc => [acc.reverse]
  | c :: cs, acc =>
    if c = ' ' then acc.reverse :: splitCharsAux cs []
    else splitCharsAux cs (c :: acc)

/-- Python's `asn_result.split(" ")` in `check_for_matching_asn`. -/
def split_on_space (s : String) : List String :=
  (splitCharsAux s.toList []).map (fun l => String.mk l)

/-- Value of a decimal digit character, if it is one. -/
def digitVal (c : Char) : Option Nat :=
  if '0' ≤ c ∧ c ≤ '9' then some (c.toNat - '0'.toNat) else none

/-- Accumulating decimal parse of a character list. -/
def parseNatAux : List Char → Nat → Option Nat
  | [], acc => some acc
  | c :: cs, acc =>
    match digitVal c with
    | some d => parseNatAux cs (acc * 10 + d)
    | none => none

/-- Django's coercion of a string filter value to the integer `asn`
column: `GreencheckASN.objects.filter(asn="1111")` compares against the
integer 1111; a non-numeric string matches nothing. -/
def str_to_int (s : String) : Option Nat :=
  match s.toList with
  | [] => none
  | l => parseNatAux l 0

/-- Python's `str(ip_address)` for an IPv4 address held as its integer
value: the dotted-quad text form. -/
def ipToString (ip : Nat) : String :=
  toString (ip / 16777216 % 256) ++ "." ++ toString (ip / 65536 % 256)
    ++ "." ++ toString (ip / 256 % 256) ++ "." ++ toString (ip % 256)

/-- The owning hosting provider row, as seen through
`ip_match.hostingprovider.id` / `matching_asn.hostingprovider.id`. -/
structure Hostingprovider where
  id : Nat
deriving DecidableEq, Repr

/-- A `GreencheckIp` registry row: an inclusive IP range
(`ip_start`, `ip_end`) owned by a hosting provider. -/
structure GreencheckIp where
  id : Nat
  ip_start : Nat
  ip_end : Nat
  hostingprovider : Hostingprovider
deriving DecidableEq, Repr

/-- A `GreencheckASN` registry row: an ASN owned by a hosting provider,
with the soft-delete `active` flag (the API's `destroy` sets
`active = False` and keeps the row, per `test_get_asn_delete`). -/
structure GreencheckASN where
  id : Nat
  asn : Nat
  active : Bool
  hostingprovider : Hostingprovider
deriving DecidableEq, Repr

/-- The `legacy_workers.SiteCheck` value object produced by
`check_domain`. `checked_at` is the clock reading. -/
structure SiteCheck where
  url : String
  ip : String
  data : Bool
  green : Bool
  hosting_provider_id : Option Nat
  match_type : Option String
  match_ip_range : Option Nat
  cached : Bool
  checked_at : Nat
deriving DecidableEq, Repr

/-- Modelled from the spec: `GreenDomain` (GreenDomainSummary) lives in
`apps/greencheck/models`, which is not among the sources; per the spec
it is a cache-shaped projection holding the domain string, the green
flag, and the provider reference if any. -/
structure GreenDomain where
  url : String
  green : Bool
  hosted_by_id : Option Nat
deriving DecidableEq, Repr

/-- Modelled from the spec: `GreenDomain.grey_result(domain=...)`
synthesizes a grey placeholder summary keyed by the given domain. -/
def GreenDomain.grey_result (domain : String) : GreenDomain :=
  { url := domain, green := false, hosted_by_id := none }

/-- Modelled from the spec: `GreenDomain.from_sitecheck(res)` projects a
full SiteCheck result into a summary. -/
def GreenDomain.from_sitecheck (res : SiteCheck) : GreenDomain :=
  { url := res.url, green := res.green, hosted_by_id := res.hosting_provider_id }

/-- The value found under `res["asn"]` by `asn_from_ip`: either a single
integer ASN or a whitespace-delimited multi-ASN string. -/
inductive ASNResult where
  | int (n : Nat)
  | str (s : String)
deriving DecidableEq, Repr

/-- Outcome of calling `asn_from_ip`: a result, the `IPDefinedError`
raised by ipwhois for private/reserved addresses, or any other
exception (network failure, malformed response). -/
inductive ASNLookup where
  | ok (r : ASNResult)
  | ipDefinedError
  | otherError
deriving DecidableEq, Repr

/-- The error `socket.gethostbyname` raises when DNS resolution fails
(`socket.gaierror`). -/
inductive ResolutionError where
  | gaierror
deriving DecidableEq, Repr

/-- `check_for_matching_ip_ranges` (domain_check.py lines 157-168):
filters the `GreencheckIp` registry with
`ip_end__gte=ip_address, ip_start__lte=ip_address` and calls `.first()`.
No `order_by` is applied, so `.first()` takes the head of the registry's
storage order. -/
def check_for_matching_ip_ranges (ranges : List GreencheckIp) (ip_address : Nat) :
    Option GreencheckIp :=
  let ip_matches := ranges.filter
    (fun r => decide (r.ip_end ≥ ip_address ∧ r.ip_start ≤ ip_address))
  ip_matches.head?

/-- The loop at the end of `check_for_matching_asn` (lines 189-194): for
each whitespace-separated candidate in order, filter the ASN registry by
`asn=asn` (Django coerces the candidate string to an integer) and return
`.first()` of the first non-empty filter result. -/
def first_asn_match (asns : List GreencheckASN) : List String → Option GreencheckASN
  | [] => none
  | c :: cs =>
    let asn_match := asns.filter (fun a => str_to_int c = some a.asn)
    match asn_match with
    | [] => first_asn_match asns cs
    | m :: _ => some m

/-- `check_for_matching_asn` (lines 170-194): an `IPDefinedError` or any
other exception from `asn_from_ip` yields no match (`return False`,
falsy to the caller); an integer ASN result is looked up with
`filter(asn=asn_result).first()`; a multi-ASN string is split on spaces
and scanned for the first candidate with a registered entry. Note the
filter is on `asn` only: the `active` flag is not consulted. -/
def check_for_matching_asn (asns : List GreencheckASN) (lookup : ASNLookup) :
    Option GreencheckASN :=
  match lookup with
  | .ipDefinedError => none
  | .otherError => none
  | .ok (.int n) => (asns.filter (fun a => a.asn = n)).head?
  | .ok (.str s) => first_asn_match asns (split_on_space s)

/-- `green_sitecheck_by_ip_range` (lines 95-110). -/
def green_sitecheck_by_ip_range (now : Nat) (domain : String) (ip_address : Nat)
    (ip_match : GreencheckIp) : SiteCheck :=
  { url := domain
  , ip := ipToString ip_address
  , data := true
  , green := true
  , hosting_provider_id := some ip_match.hostingprovider.id
  , match_type := some "ip"
  , match_ip_range := some ip_match.id
  , cached := false
  , checked_at := now }

/-- `green_sitecheck_by_asn` (lines 112-123). -/
def green_sitecheck_by_asn (now : Nat) (domain : String) (ip_address : Nat)
    (matching_asn : GreencheckASN) : SiteCheck :=
  { url := domain
  , ip := ipToString ip_address
  , data := true
  , green := true
  , hosting_provider_id := some matching_asn.hostingprovider.id
  , match_type := some "as"
  , match_ip_range := some matching_asn.id
  , cached := false
  , checked_at := now }

/-- `grey_sitecheck` (lines 125-138). -/
def grey_sitecheck (now : Nat) (domain : String) (ip_address : Nat) : SiteCheck :=
  { url := domain
  , ip := ipToString ip_address
  , data := false
  , green := false
  , hosting_provider_id := none
  , match_type := none
  , match_ip_range := none
  , cached := false
  , checked_at := now }

/-- The external world a check runs against: the DNS resolver
(`socket.gethostbyname` composed with `ipaddress.ip_address`), the two
registries in storage order, the IP-to-ASN service behaviour per IP, and
the clock read by `timezone.now()`. -/
structure Env where
  resolver : String → Except ResolutionError Nat
  ranges : List GreencheckIp
  asns : List GreencheckASN
  asnLookup : Nat → ASNLookup
  now : Nat

/-- `convert_domain_to_ip` (lines 85-93): resolve via DNS; a failure
(`socket.gaierror`) is not caught here. -/
def convert_domain_to_ip (e : Env) (domain : String) : Except ResolutionError Nat :=
  e.resolver domain

/-- `check_domain` (lines 140-155): resolve (errors propagate), then IP
range match, then ASN match, else grey. Every path stamps the clock and
the resolved IP. -/
def check_domain (e : Env) (domain : String) : Except ResolutionError SiteCheck :=
  match convert_domain_to_ip e domain with
  | .error err => .error err
  | .ok ip_address =>
    match check_for_matching_ip_ranges e.ranges ip_address with
    | some ip_match => .ok (green_sitecheck_by_ip_range e.now domain ip_address ip_match)
    | none =>
      match check_for_matching_asn e.asns (e.asnLookup ip_address) with
      | some matching_asn => .ok (green_sitecheck_by_asn e.now domain ip_address matching_asn)
      | none => .ok (grey_sitecheck e.now domain ip_address)

/-- `perform_full_lookup` (lines 59-72): check the domain; a grey result
becomes `GreenDomain.grey_result(domain=res.url)`, a green one
`GreenDomain.from_sitecheck(res)`. The resolution error from
`check_domain` is not caught. -/
def perform_full_lookup (e : Env) (domain : String) : Except ResolutionError GreenDomain :=
  match check_domain e domain with
  | .error err => .error err
  | .ok res =>
    if res.green then .ok (GreenDomain.from_sitecheck res)
    else .ok (GreenDomain.grey_result res.url)

/-- `grey_urls_only` (lines 196-203): keep the urls of `urls_list` that
do not occur among the `url` fields of the queryset. -/
def grey_urls_only (urls_list : List String) (queryset : List GreenDomain) :
    List String :=
  let green_list := queryset.map (fun domain_object => domain_object.url)
  urls_list.filter (fun url => decide (url ∉ green_list))

/-- `build_green_greylist` (lines 205-217): a loop appends a grey
summary per grey domain, then the evaluated green list (`[::1]` is a
shallow copy) is concatenated with the grey summaries. -/
def build_green_greylist (grey_list : List String) (green_list : List GreenDomain) :
    List GreenDomain :=
  let grey_domains :=
    grey_list.foldl (fun acc domain => acc ++ [GreenDomain.grey_result domain]) []
  let evaluated_green_queryset := green_list ++ []
  evaluated_green_queryset ++ grey_domains

/-- Erase the only field `check_domain` stamps from the clock, for
comparing two results up to their timestamp. -/
def strip_timestamp (r : SiteCheck) : SiteCheck :=
  { r with checked_at := 0 }

/-- A wide registered range (span 1000) stored before a narrow one. -/
def wide_range : GreencheckIp :=
  { id := 1, ip_start := 0, ip_end := 1000, hostingprovider := { id := 1 } }

/-- A narrow registered range (span 20) stored after the wide one. -/
def narrow_range : GreencheckIp :=
  { id := 2, ip_start := 100, ip_end := 120, hostingprovider := { id := 2 } }

/-- A registered ASN entry that has been soft-deleted
(`active = False`). -/
def inactive_asn_entry : GreencheckASN :=
  { id := 3, asn := 2222, active := false, hostingprovider := { id := 4 } }

/-- An active registered ASN entry for ASN 2222. -/
def active_asn_2222 : GreencheckASN :=
  { id := 5, asn := 2222, active := true, hostingprovider := { id := 9 } }

/-- Claim C1. The IP address 110 is contained in both registered ranges,
and `narrow_range` has the strictly smaller span, yet
`check_for_matching_ip_ranges` returns `wide_range`, the first row in
storage order: the code applies no ordering before `.first()`, contrary
to its own comment "order matches by ascending range size" and to the
claim that the smallest-span containing range is returned. -/
theorem ip_range_match_ignores_span :
    (wide_range.ip_start ≤ 110 ∧ 110 ≤ wide_range.ip_end) ∧
    (narrow_range.ip_start ≤ 110 ∧ 110 ≤ narrow_range.ip_end) ∧
    narrow_range.ip_end - narrow_range.ip_start <
      wide_range.ip_end - wide_range.ip_start ∧
    check_for_matching_ip_ranges [wide_range, narrow_range] 110 = some wide_range ∧
    check_for_matching_ip_ranges [wide_range, narrow_range] 110 ≠ some narrow_range := by
  decide

/-- Claim C2. The registry holds a single soft-deleted
(`active = False`) entry for ASN 2222, and the lookup service reports
ASN 2222: `check_for_matching_asn` returns that inactive entry, because
its queryset filter is on `asn` only and never consults `active`,
contrary to the claim that inactive entries never participate in
matching. -/
theorem asn_match_ignores_active_flag :
    inactive_asn_entry.active = false ∧
    check_for_matching_asn [inactive_asn_entry] (.ok (.int 2222)) =
      some inactive_asn_entry := by
  decide

/-- Claim C8. `grey_urls_only` returns exactly the requested hosts whose
string equals no `url` field of the known-green summaries, as a sublist
of the request list (order preserved); in particular
`grey_urls_only ["a.com", "b.com"]` against a green summary for
`"a.com"` returns `["b.com"]`. -/
theorem grey_urls_only_exact_complement (urls_list : List String)
    (queryset : List GreenDomain) :
    (∀ u, u ∈ grey_urls_only urls_list queryset ↔
      (u ∈ urls_list ∧ ∀ g ∈ queryset, g.url ≠ u)) ∧
    List.Sublist (grey_urls_only urls_list queryset) urls_list ∧
    grey_urls_only ["a.com", "b.com"]
      [{ url := "a.com", green := true, hosted_by_id := some 1 }] = ["b.com"] := by
  refine ⟨?_, ?_, by decide⟩
  · intro u
    simp only [grey_urls_only, List.mem_filter, List.mem_map, decide_eq_true_eq]
    constructor
    · rintro ⟨hu, hnot⟩
      exact ⟨hu, fun g hg heq => hnot ⟨g, hg, heq⟩⟩
    · rintro ⟨hu, hall⟩
      exact ⟨hu, fun ⟨g, hg, heq⟩ => hall g hg heq⟩
  · simp only [grey_urls_only]
    exact List.filter_sublist _

/-- The append loop over the grey list builds exactly the image of
`GreenDomain.grey_result` over it, in order. -/
lemma grey_foldl_eq_map (l : List String) (acc : List GreenDomain) :
    l.foldl (fun acc domain => acc ++ [GreenDomain.grey_result domain]) acc =
      acc ++ l.map GreenDomain.grey_result := by
  induction l generalizing acc with
  | nil => simp
  | cons d ds ih => simp [List.foldl_cons, ih]

/-- Claim C9. `build_green_greylist` returns the green summaries first,
in their given order, followed by one synthesized grey summary per grey
host, in order; `build_green_greylist [] [g] = [g]`, and for
`["x.com"]` with no green results it returns exactly the grey summary
for `"x.com"`. -/
theorem build_green_greylist_green_then_grey (grey_list : List String)
    (green_list : List GreenDomain) :
    build_green_greylist grey_list green_list =
      green_list ++ grey_list.map GreenDomain.grey_result ∧
    (∀ g : GreenDomain, build_green_greylist [] [g] = [g]) ∧
    build_green_greylist ["x.com"] [] = [GreenDomain.grey_result "x.com"] ∧
    (GreenDomain.grey_result "x.com").url = "x.com" ∧
    (GreenDomain.grey_result "x.com").green = false := by
  refine ⟨?_, ?_, ?_, rfl, rfl⟩
  · simp [build_green_greylist, grey_foldl_eq_map]
  · intro g
    simp [build_green_greylist]
  · simp [build_green_greylist]

/-- The scan loop over multi-ASN candidates returns the first candidate
in list order that has a registered entry, i.e. the head of the
per-candidate match heads, in order. -/
lemma first_asn_match_eq_filterMap (asns : List GreencheckASN) (l : List String) :
    first_asn_match asns l =
      (l.filterMap
        (fun c => (asns.filter (fun a => str_to_int c = some a.asn)).head?)).head? := by
  induction l with
  | nil => rfl
  | cons c cs ih =>
    rw [first_asn_match, List.filterMap_cons]
    cases h : asns.filter (fun a => str_to_int c = some a.asn) with
    | nil => simpa [h] using ih
    | cons m ms => simp [h]

/-- Claim C6. On a multi-ASN lookup string, `check_for_matching_asn`
splits on whitespace and returns the first candidate, in the order
produced by the lookup service, that has a matching registered entry;
in particular `"1111 2222"` with only 2222 registered (and active)
matches on the 2222 entry. -/
theorem multi_asn_first_candidate_wins (asns : List GreencheckASN) (s : String) :
    check_for_matching_asn asns (.ok (.str s)) =
      ((split_on_space s).filterMap
        (fun c => (asns.filter (fun a => str_to_int c = some a.asn)).head?)).head? ∧
    check_for_matching_asn [active_asn_2222] (.ok (.str "1111 2222")) =
      some active_asn_2222 := by
  exact ⟨first_asn_match_eq_filterMap asns (split_on_space s), by decide⟩

/-- Claim C5. With the resolver, both registries and the ASN lookup
service unchanged, running `check_domain` at two different clock
readings yields results that agree on every field except `checked_at`
(both runs also fail identically when resolution fails). -/
theorem check_domain_idempotent_up_to_timestamp (e : Env) (t1 t2 : Nat)
    (domain : String) :
    (check_domain { e with now := t1 } domain).map strip_timestamp =
    (check_domain { e with now := t2 } domain).map strip_timestamp := by
  cases hres : e.resolver domain with
  | error err => simp [check_domain, convert_domain_to_ip, hres]
  | ok ip =>
    cases hm : check_for_matching_ip_ranges e.ranges ip with
    | some m =>
      simp [check_domain, convert_domain_to_ip, hres, hm, Except.map,
        strip_timestamp, green_sitecheck_by_ip_range]
    | none =>
      cases ha : check_for_matching_asn e.asns (e.asnLookup ip) with
      | some m =>
        simp [check_domain, convert_domain_to_ip, hres, hm, ha, Except.map,
          strip_timestamp, green_sitecheck_by_asn]
      | none =>
        simp [check_domain, convert_domain_to_ip, hres, hm, ha, Except.map,
          strip_timestamp, grey_sitecheck]

/-- Claim C4. When DNS resolution fails, `check_domain` propagates the
resolution error to its caller: no `SiteCheck` result is produced. -/
theorem resolution_error_propagates (e : Env) (domain : String)
    (err : ResolutionError) (h : e.resolver domain = .error err) :
    check_domain e domain = .error err ∧
    ∀ r : SiteCheck, check_domain e domain ≠ .ok r := by
  refine ⟨?_, ?_⟩
  · simp [check_domain, convert_domain_to_ip, h]
  · intro r
    simp [check_domain, convert_domain_to_ip, h]

/-- An environment whose DNS resolver always fails. -/
def unresolvable_env : Env :=
  { resolver := fun _ => .error .gaierror
  , ranges := []
  , asns := []
  , asnLookup := fun _ => .otherError
  , now := 0 }

/-- Witness for claim C4 at a concrete unresolvable host. -/
theorem resolution_error_propagates_witness :
    check_domain unresolvable_env "nosuchsite.example" = .error .gaierror ∧
    ∀ r : SiteCheck, check_domain unresolvable_env "nosuchsite.example" ≠ .ok r :=
  resolution_error_propagates unresolvable_env "nosuchsite.example" .gaierror rfl

/-- Claim C3. When the host resolves but the ASN lookup fails — with the
private/reserved-address condition or any other failure — the ASN-match
step returns no match, `check_domain` still returns a result (no
exception escapes), and on the grey path (no IP range containing the
address) that result is the grey sitecheck. -/
theorem asn_lookup_failure_degrades_to_grey (e : Env) (domain : String) (ip : Nat)
    (hres : e.resolver domain = .ok ip)
    (hfail : e.asnLookup ip = .ipDefinedError ∨ e.asnLookup ip = .otherError) :
    check_for_matching_asn e.asns (e.asnLookup ip) = none ∧
    (∃ r, check_domain e domain = .ok r) ∧
    (check_for_matching_ip_ranges e.ranges ip = none →
      check_domain e domain = .ok (grey_sitecheck e.now domain ip)) := by
  have hnone : check_for_matching_asn e.asns (e.asnLookup ip) = none := by
    rcases hfail with h | h <;> simp [check_for_matching_asn, h]
  refine ⟨hnone, ?_, ?_⟩
  · simp only [check_domain, convert_domain_to_ip, hres]
    cases hm : check_for_matching_ip_ranges e.ranges ip with
    | some m => exact ⟨_, rfl⟩
    | none => exact ⟨_, by rw [hnone]⟩
  · intro hm
    simp only [check_domain, convert_domain_to_ip, hres, hm, hnone]

/-- An environment resolving every host to the loopback address
127.0.0.1, whose ASN lookup raises the private-address condition. -/
def loopback_env : Env :=
  { resolver := fun _ => .ok 2130706433
  , ranges := []
  , asns := []
  , asnLookup := fun _ => .ipDefinedError
  , now := 5 }

/-- Witness for claim C3 at the loopback address: the check degrades to
a grey result instead of failing. -/
theorem asn_lookup_failure_degrades_to_grey_witness :
    check_for_matching_asn loopback_env.asns (loopback_env.asnLookup 2130706433) = none ∧
    (∃ r, check_domain loopback_env "localhost" = .ok r) ∧
    (check_for_matching_ip_ranges loopback_env.ranges 2130706433 = none →
      check_domain loopback_env "localhost" =
        .ok (grey_sitecheck 5 "localhost" 2130706433)) :=
  asn_lookup_failure_degrades_to_grey loopback_env "localhost" 2130706433 rfl
    (Or.inl rfl)

/-- Shape of every successful `check_domain` run: the host resolved to
some IP, and the result is exactly one of the three sitecheck
constructors applied to that IP, the clock and the domain. -/
lemma check_domain_ok_cases (e : Env) (domain : String) (r : SiteCheck)
    (h : check_domain e domain = .ok r) :
    ∃ ip, e.resolver domain = .ok ip ∧
      ((∃ m, check_for_matching_ip_ranges e.ranges ip = some m ∧
          r = green_sitecheck_by_ip_range e.now domain ip m) ∨
       (∃ m, check_for_matching_ip_ranges e.ranges ip = none ∧
          check_for_matching_asn e.asns (e.asnLookup ip) = some m ∧
          r = green_sitecheck_by_asn e.now domain ip m) ∨
       (check_for_matching_ip_ranges e.ranges ip = none ∧
        check_for_matching_asn e.asns (e.asnLookup ip) = none ∧
        r = grey_sitecheck e.now domain ip)) := by
  cases hres : e.resolver domain with
  | error err => simp [check_domain, convert_domain_to_ip, hres] at h
  | ok ip =>
    refine ⟨ip, rfl, ?_⟩
    cases hm : check_for_matching_ip_ranges e.ranges ip with
    | some m =>
      left
      simp only [check_domain, convert_domain_to_ip, hres, hm, Except.ok.injEq] at h
      exact ⟨m, rfl, h.symm⟩
    | none =>
      cases ha : check_for_matching_asn e.asns (e.asnLookup ip) with
      | some m =>
        right; left
        simp only [check_domain, convert_domain_to_ip, hres, hm, ha,
          Except.ok.injEq] at h
        exact ⟨m, rfl, rfl, h.symm⟩
      | none =>
        right; right
        simp only [check_domain, convert_domain_to_ip, hres, hm, ha,
          Except.ok.injEq] at h
        exact ⟨rfl, rfl, h.symm⟩

/-- Claim C7. `perform_full_lookup` turns a grey check into a grey
summary keyed by the original domain string passed by the caller (not
the resolved IP or any derived form), and a green check into the
projection of the full classification result. -/
theorem perform_full_lookup_grey_keyed_by_domain (e : Env) (domain : String)
    (r : SiteCheck) (h : check_domain e domain = .ok r) :
    (r.green = false →
      perform_full_lookup e domain = .ok (GreenDomain.grey_result domain) ∧
      (GreenDomain.grey_result domain).url = domain ∧
      (GreenDomain.grey_result domain).green = false) ∧
    (r.green = true →
      perform_full_lookup e domain = .ok (GreenDomain.from_sitecheck r)) := by
  have hurl : r.url = domain := by
    obtain ⟨ip, hres, hc⟩ := check_domain_ok_cases e domain r h
    rcases hc with ⟨m, _, rfl⟩ | ⟨m, _, _, rfl⟩ | ⟨_, _, rfl⟩ <;> rfl
  constructor
  · intro hg
    refine ⟨?_, rfl, rfl⟩
    simp [perform_full_lookup, h, hg, hurl]
  · intro hg
    simp [perform_full_lookup, h, hg]

/-- An environment that resolves to an IP matching nothing: empty range
registry, and an ASN that no registered entry carries. -/
def grey_env : Env :=
  { resolver := fun _ => .ok 167772161
  , ranges := []
  , asns := []
  , asnLookup := fun _ => .ok (.int 64512)
  , now := 3 }

/-- Witness for claim C7: the grey summary for `"grey.example"` is keyed
by that original string, which differs from the resolved IP's text form. -/
theorem perform_full_lookup_grey_keyed_by_domain_witness :
    ((grey_sitecheck 3 "grey.example" 167772161).green = false →
      perform_full_lookup grey_env "grey.example" =
        .ok (GreenDomain.grey_result "grey.example") ∧
      (GreenDomain.grey_result "grey.example").url = "grey.example" ∧
      (GreenDomain.grey_result "grey.example").green = false) ∧
    ((grey_sitecheck 3 "grey.example" 167772161).green = true →
      perform_full_lookup grey_env "grey.example" =
        .ok (GreenDomain.from_sitecheck (grey_sitecheck 3 "grey.example" 167772161))) :=
  perform_full_lookup_grey_keyed_by_domain grey_env "grey.example"
    (grey_sitecheck 3 "grey.example" 167772161) rfl

/-- Claim C10. Every result of a successful `check_domain` satisfies:
`green` equals the matched-any-`data` flag, `cached` is false, `url` is
the domain argument, `ip` is the string form of the resolved address,
and the provider id and match kind are present exactly on green
results. -/
theorem sitecheck_result_invariants (e : Env) (domain : String) (r : SiteCheck)
    (h : check_domain e domain = .ok r) :
    r.green = r.data ∧ r.cached = false ∧ r.url = domain ∧
    (∃ ip, e.resolver domain = .ok ip ∧ r.ip = ipToString ip) ∧
    (r.green = true → r.hosting_provider_id ≠ none ∧ r.match_type ≠ none) ∧
    (r.green = false → r.hosting_provider_id = none ∧ r.match_type = none) := by
  obtain ⟨ip, hres, hc⟩ := check_domain_ok_cases e domain r h
  rcases hc with ⟨m, _, rfl⟩ | ⟨m, _, _, rfl⟩ | ⟨_, _, rfl⟩ <;>
    exact ⟨rfl, rfl, rfl, ⟨ip, hres, rfl⟩, by simp [green_sitecheck_by_ip_range,
      green_sitecheck_by_asn, grey_sitecheck], by simp [green_sitecheck_by_ip_range,
      green_sitecheck_by_asn, grey_sitecheck]⟩

/-- A registered IP range row used by the claim C10 witness. -/
def range_row : GreencheckIp :=
  { id := 11, ip_start := 3232235776, ip_end := 3232236031
  , hostingprovider := { id := 42 } }

/-- An environment whose resolved IP 192.168.1.1 falls inside the single
registered range. -/
def range_env : Env :=
  { resolver := fun _ => .ok 3232235777
  , ranges := [range_row]
  , asns := []
  , asnLookup := fun _ => .otherError
  , now := 7 }

/-- Witness for claim C10 on a concrete green-by-ip-range check. -/
theorem sitecheck_result_invariants_witness :
    (green_sitecheck_by_ip_range 7 "green.example" 3232235777 range_row).green =
      (green_sitecheck_by_ip_range 7 "green.example" 3232235777 range_row).data ∧
    (green_sitecheck_by_ip_range 7 "green.example" 3232235777 range_row).cached = false ∧
    (green_sitecheck_by_ip_range 7 "green.example" 3232235777 range_row).url =
      "green.example" ∧
    (∃ ip, range_env.resolver "green.example" = .ok ip ∧
      (green_sitecheck_by_ip_range 7 "green.example" 3232235777 range_row).ip =
        ipToString ip) ∧
    ((green_sitecheck_by_ip_range 7 "green.example" 3232235777 range_row).green = true →
      (green_sitecheck_by_ip_range 7 "green.example" 3232235777 range_row).hosting_provider_id ≠ none ∧
      (green_sitecheck_by_ip_range 7 "green.example" 3232235777 range_row).match_type ≠ none) ∧
    ((green_sitecheck_by_ip_range 7 "green.example" 3232235777 range_row).green = false →
      (green_sitecheck_by_ip_range 7 "green.example" 3232235777 range_row).hosting_provider_id = none ∧
      (green_sitecheck_by_ip_range 7 "green.example" 3232235777 range_row).match_type = none) :=
  sitecheck_result_invariants range_env "green.example"
    (green_sitecheck_by_ip_range 7 "green.example" 3232235777 range_row) rfl

end Greencheck
